import Mathlib

/-!
Verification of the Android IMC (Integrity Measurement Collector) engine,
a shallow embedding of
src/src/frontends/android/jni/libandroidbridge/byod/imc_android.c.

External collaborators that are not part of this file set (the libimcv
agent registry in imc_agent.c, the PA-TNC message container in imc_msg.c,
the JNI measurement provider and the host send primitive) are modelled as
explicit parameters or as small definitions marked "Modelled from the
spec", faithful to the interface contracts the design document states for
them.
-/

/-- TNC result codes: the closed result set used by this IMC
(success, fatal, not-initialized, already-initialized, no-common-version). -/
inductive TNC_Result where
  | TNC_RESULT_SUCCESS
  | TNC_RESULT_FATAL
  | TNC_RESULT_NOT_INITIALIZED
  | TNC_RESULT_ALREADY_INITIALIZED
  | TNC_RESULT_NO_COMMON_VERSION
  deriving DecidableEq, Repr

open TNC_Result

/-- A PA-TNC attribute type: vendor namespace id plus type id (pen_type_t). -/
structure pen_type_t where
  vendor_id : Nat
  type : Nat
  deriving DecidableEq, Repr

/-- IETF Private Enterprise Number (pen.h). -/
def PEN_IETF : Nat := 0x000000
/-- ITA-HSR Private Enterprise Number (pen.h). -/
def PEN_ITA : Nat := 0x00902a
/-- IETF attribute type: attribute request (RFC 5792). -/
def IETF_ATTR_ATTRIBUTE_REQUEST : Nat := 1
/-- IETF attribute type: product information (RFC 5792). -/
def IETF_ATTR_PRODUCT_INFORMATION : Nat := 2
/-- IETF attribute type: string version (RFC 5792). -/
def IETF_ATTR_STRING_VERSION : Nat := 4
/-- ITA attribute type: get settings (ita_attr.h). -/
def ITA_ATTR_GET_SETTINGS : Nat := 3
/-- ITA attribute type: settings (ita_attr.h). -/
def ITA_ATTR_SETTINGS : Nat := 4
/-- The single IF-IMC version this IMC supports (TNC_IFIMC_VERSION_1). -/
def TNC_IFIMC_VERSION_1 : Nat := 1

/-- TNC connection lifecycle state codes (TCG IF-IMC). -/
def TNC_CONNECTION_STATE_CREATE : Nat := 0
def TNC_CONNECTION_STATE_HANDSHAKE : Nat := 1
def TNC_CONNECTION_STATE_DELETE : Nat := 5
/-- Evaluation result code for "do not know" (TCG IF-IMV). -/
def TNC_IMV_EVALUATION_RESULT_DONT_KNOW : Nat := 4

/-- The external measurement provider (the AndroidImc getMeasurement JNI
seam): given an attribute type and optional string arguments, returns the
raw measurement bytes, or none when no measurement is available or an
error occurred. -/
def Provider : Type := pen_type_t → Option (List String) → Option (List Nat)

/-- An attribute produced for an outgoing message by wrapping provider
data (imcv_pa_tnc_attributes create of vendor id, type and data). -/
structure meas_attr where
  vendor_id : Nat
  type : Nat
  data : List Nat
  deriving DecidableEq, Repr

/-- The host engine message-send primitive consumed by imc_msg send:
takes the assembled attribute list and the exclusive flag, returns a
result code. -/
def SendPrim : Type := List meas_attr → Bool → TNC_Result

/-- One provider invocation recorded while building an outgoing message:
the requested attribute type and the optional argument list. -/
abbrev meas_call : Type := pen_type_t × Option (List String)

/-- An outgoing PA-TNC message under construction: the ordered attribute
list, plus the journal of get_measurement invocations made on its
behalf. -/
structure out_msg_t where
  attrs : List meas_attr
  calls : List meas_call
  deriving DecidableEq, Repr

/-- An empty outbound message (imc_msg_create / imc_msg_create_as_reply). -/
def imc_msg_empty : out_msg_t := { attrs := [], calls := [] }

/-- get_measurement: query the provider for the given attribute type with
optional arguments; on data, wrap it as an attribute typed with the
requested vendor id and type; on provider failure return none. -/
def get_measurement (provider : Provider) (attr_type : pen_type_t)
    (args : Option (List String)) : Option meas_attr :=
  match provider attr_type args with
  | some data => some { vendor_id := attr_type.vendor_id, type := attr_type.type, data := data }
  | none => none

/-- add_measurement: fetch the measurement for the requested attribute
type; on success append it to the outgoing message, otherwise log a
diagnostic and leave the message unchanged. The provider invocation is
recorded in the journal either way. -/
def add_measurement (provider : Provider) (attr_type : pen_type_t)
    (msg : out_msg_t) (args : Option (List String)) : out_msg_t :=
  let msg := { msg with calls := msg.calls ++ [(attr_type, args)] }
  match get_measurement provider attr_type args with
  | some attr => { msg with attrs := msg.attrs ++ [attr] }
  | none => msg

/-- The payload of a parsed inbound attribute: a list of requested
(vendor_id, type) pairs for an IETF attribute request, a list of setting
names for an ITA get-settings attribute, or opaque bytes otherwise. -/
inductive attr_value where
  | entries : List pen_type_t → attr_value
  | settings : List String → attr_value
  | raw : List Nat → attr_value
  deriving DecidableEq, Repr

/-- A parsed inbound PA-TNC attribute: its type (as returned by get_type)
and its decoded payload. -/
structure pa_tnc_attr_t where
  attr_type : pen_type_t
  value : attr_value
  deriving DecidableEq, Repr

/-- The (vendor_id, type) entries carried by an attribute-request payload
(the cast to ietf_attr_attr_request_t plus its enumerator). -/
def requestEntries : attr_value → List pen_type_t
  | attr_value.entries l => l
  | _ => []

/-- The setting names carried by a get-settings payload (the cast to
ita_attr_get_settings_t plus its enumerator). -/
def settingNames : attr_value → List String
  | attr_value.settings l => l
  | _ => []

/-- handle_ietf_attribute: on an IETF attribute-request attribute, add one
measurement per listed (vendor_id, type) entry, with no argument list;
any other IETF attribute type is ignored. -/
def handle_ietf_attribute (provider : Provider) (attr_type : pen_type_t)
    (attr : pa_tnc_attr_t) (out_msg : out_msg_t) : out_msg_t :=
  if attr_type.type = IETF_ATTR_ATTRIBUTE_REQUEST then
    (requestEntries attr.value).foldl
      (fun m entry => add_measurement provider entry m none) out_msg
  else out_msg

/-- handle_ita_attribute: on an ITA get-settings attribute, add one
settings measurement whose argument list is the setting names carried in
the attribute; any other ITA attribute type is ignored. -/
def handle_ita_attribute (provider : Provider) (attr_type : pen_type_t)
    (attr : pa_tnc_attr_t) (out_msg : out_msg_t) : out_msg_t :=
  if attr_type.type = ITA_ATTR_GET_SETTINGS then
    add_measurement provider { vendor_id := PEN_ITA, type := ITA_ATTR_SETTINGS }
      out_msg (some (settingNames attr.value))
  else out_msg

/-- The attribute dispatch switch inside receive_message: match on
vendor_id first (IETF handler group, ITA handler group, or ignore), then
each handler matches on type. -/
def dispatch_attr (provider : Provider) (out_msg : out_msg_t)
    (attr : pa_tnc_attr_t) : out_msg_t :=
  if attr.attr_type.vendor_id = PEN_IETF then
    handle_ietf_attribute provider attr.attr_type attr out_msg
  else if attr.attr_type.vendor_id = PEN_ITA then
    handle_ita_attribute provider attr.attr_type attr out_msg
  else out_msg

/-- The parse outcome of an inbound PA-TNC message: either a well-formed
ordered attribute list, or message-level framing corruption. -/
inductive parse_outcome where
  | wellFormed : List pa_tnc_attr_t → parse_outcome
  | framingError : parse_outcome
  deriving DecidableEq, Repr

/-- Modelled from the spec: the receive method of the message container
(imc_msg.c is not among the given sources). Per the design document, it
parses the inbound bytes into an ordered attribute list and reports
success, and it sets the fatal-error flag and returns a non-success
(fatal) result when framing corruption makes the whole message
unparsable; a single unknown-type attribute is not fatal (it decodes to
an opaque attribute). Returns (result, fatal_error). -/
def imc_msg_receive : parse_outcome → TNC_Result × Bool
  | parse_outcome.wellFormed _ => (TNC_RESULT_SUCCESS, false)
  | parse_outcome.framingError => (TNC_RESULT_FATAL, true)

/-- The ordered attribute list of a parsed message (empty on framing
error; never consulted in that case by receive_message). -/
def msg_attrs : parse_outcome → List pa_tnc_attr_t
  | parse_outcome.wellFormed l => l
  | parse_outcome.framingError => []

/-- The observable outcome of receive_message: the returned result code,
the reply handed to the send primitive together with its exclusive flag
(none when send was never invoked), and the journal of provider
invocations made while assembling the reply. -/
structure receive_outcome where
  result : TNC_Result
  sent : Option (List meas_attr × Bool)
  calls : List meas_call
  deriving Repr

/-- receive_message: parse the inbound message; on a non-success parse
result return it at once (no reply). Otherwise dispatch every contained
attribute by vendor and type into a reply message; if the parse flagged a
fatal error, return fatal without sending, else send the reply with the
exclusive flag set. -/
def receive_message (provider : Provider) (send : SendPrim)
    (in_msg : parse_outcome) : receive_outcome :=
  let rf := imc_msg_receive in_msg
  if rf.1 ≠ TNC_RESULT_SUCCESS then
    { result := rf.1, sent := none, calls := [] }
  else
    let out_msg := (msg_attrs in_msg).foldl (dispatch_attr provider) imc_msg_empty
    if rf.2 then
      { result := TNC_RESULT_FATAL, sent := none, calls := out_msg.calls }
    else
      { result := send out_msg.attrs true, sent := some (out_msg.attrs, true),
        calls := out_msg.calls }

/-- One connection state record (imc_android_state_t): the current
lifecycle state and the stored evaluation result (none until seeded). -/
structure imc_state_rec where
  lifecycle : Nat
  result : Option Nat
  deriving DecidableEq, Repr

/-- The connection state registry held by the agent: one record per
active connection identifier. -/
abbrev Registry : Type := List (Nat × imc_state_rec)

/-- First record registered under the given connection identifier. -/
def reg_lookup : Registry → Nat → Option imc_state_rec
  | [], _ => none
  | p :: rest, id => if p.1 = id then some p.2 else reg_lookup rest id

/-- Replace every record registered under the given identifier. -/
def reg_set (reg : Registry) (id : Nat) (st : imc_state_rec) : Registry :=
  reg.map (fun p => if p.1 = id then (id, st) else p)

/-- Remove the records registered under the given identifier. -/
def reg_remove (reg : Registry) (id : Nat) : Registry :=
  reg.filter (fun p => p.1 != id)

/-- Modelled from the spec: the agent registry create operation
(imc_agent.c is not among the given sources). Creating a state fails if
an entry already exists for the identifier, else registers a fresh record
in the created lifecycle state with no evaluation result. -/
def create_state (reg : Registry) (id : Nat) : TNC_Result × Registry :=
  match reg_lookup reg id with
  | some _ => (TNC_RESULT_FATAL, reg)
  | none => (TNC_RESULT_SUCCESS,
      reg ++ [(id, { lifecycle := TNC_CONNECTION_STATE_CREATE, result := none })])

/-- Modelled from the spec: the agent registry change operation
(imc_agent.c is not among the given sources). Fails if no entry exists;
otherwise records the new lifecycle state, and on the handshake-begin
transition defaults the evaluation result when it was not already set. -/
def change_state (reg : Registry) (id : Nat) (new_state : Nat) :
    TNC_Result × Registry :=
  match reg_lookup reg id with
  | none => (TNC_RESULT_FATAL, reg)
  | some st =>
    let res := if new_state = TNC_CONNECTION_STATE_HANDSHAKE ∧ st.result = none
               then some TNC_IMV_EVALUATION_RESULT_DONT_KNOW else st.result
    (TNC_RESULT_SUCCESS, reg_set reg id { lifecycle := new_state, result := res })

/-- Modelled from the spec: the agent registry delete operation
(imc_agent.c is not among the given sources). Fails if no entry exists,
else removes the record. -/
def delete_state (reg : Registry) (id : Nat) : TNC_Result × Registry :=
  match reg_lookup reg id with
  | none => (TNC_RESULT_FATAL, reg)
  | some _ => (TNC_RESULT_SUCCESS, reg_remove reg id)

/-- The set_result method of the connection state record: store the given
evaluation result. The IMC identifier argument is carried for interface
fidelity; the record keeps one result. -/
def set_result (reg : Registry) (id : Nat) (imc_id r : Nat) : Registry :=
  match reg_lookup reg id with
  | none => reg
  | some st => reg_set reg id { st with result := some r }

/-- The process-wide collector globals: whether the agent handle
imc_android is allocated, whether the measurement subsystem (libpts) is
initialized, and the agent connection state registry. -/
structure imc_globals where
  imc_android : Bool
  libpts : Bool
  reg : Registry
  deriving DecidableEq, Repr

/-- The process state before any call: agent unallocated, measurement
subsystem down, empty registry. -/
def fresh_globals : imc_globals := { imc_android := false, libpts := false, reg := [] }

/-- TNC_IMC_Initialize: fail if already initialized; allocate the agent
(create_ok models imc_agent_create returning non-null) and initialize
libpts; only then check the negotiated version range against the single
supported version, failing with no-common-version when it is excluded. -/
def TNC_IMC_Initialize (create_ok : Bool) (min_version max_version : Nat)
    (s : imc_globals) : TNC_Result × imc_globals :=
  if s.imc_android then (TNC_RESULT_ALREADY_INITIALIZED, s)
  else if !create_ok then (TNC_RESULT_FATAL, s)
  else
    let s2 := { s with imc_android := true, libpts := true }
    if TNC_IFIMC_VERSION_1 < min_version ∨ max_version < TNC_IFIMC_VERSION_1 then
      (TNC_RESULT_NO_COMMON_VERSION, s2)
    else (TNC_RESULT_SUCCESS, s2)

/-- TNC_IMC_NotifyConnectionChange: fail when not initialized; on the
create state register a fresh record; on the handshake state run the
registry transition, failing fatally when it fails, and otherwise seed
the evaluation result to the do-not-know value; on the delete state
remove the record; any other state is a plain registry transition. -/
def TNC_IMC_NotifyConnectionChange (imc_id conn_id new_state : Nat)
    (s : imc_globals) : TNC_Result × imc_globals :=
  if !s.imc_android then (TNC_RESULT_NOT_INITIALIZED, s)
  else if new_state = TNC_CONNECTION_STATE_CREATE then
    let r := create_state s.reg conn_id
    (r.1, { s with reg := r.2 })
  else if new_state = TNC_CONNECTION_STATE_HANDSHAKE then
    let r := change_state s.reg conn_id new_state
    if r.1 ≠ TNC_RESULT_SUCCESS then (TNC_RESULT_FATAL, { s with reg := r.2 })
    else (TNC_RESULT_SUCCESS,
      { s with reg := set_result r.2 conn_id imc_id TNC_IMV_EVALUATION_RESULT_DONT_KNOW })
  else if new_state = TNC_CONNECTION_STATE_DELETE then
    let r := delete_state s.reg conn_id
    (r.1, { s with reg := r.2 })
  else
    let r := change_state s.reg conn_id new_state
    (r.1, { s with reg := r.2 })

/-- The observable outcome of TNC_IMC_BeginHandshake: result code, the
message handed to the send primitive with its exclusive flag (none when
send was never invoked), and the journal of provider invocations. -/
structure hs_outcome where
  result : TNC_Result
  sent : Option (List meas_attr × Bool)
  calls : List meas_call
  deriving Repr

/-- TNC_IMC_BeginHandshake: fail when not initialized; fail fatally when
the connection has no registered state; if the send-os-info option is
enabled, build one message with the product-information and
string-version baseline measurements and send it with the exclusive flag
not set; otherwise succeed without sending. -/
def TNC_IMC_BeginHandshake (provider : Provider) (send : SendPrim)
    (send_os_info : Bool) (conn_id : Nat) (s : imc_globals) : hs_outcome :=
  if !s.imc_android then
    { result := TNC_RESULT_NOT_INITIALIZED, sent := none, calls := [] }
  else
    match reg_lookup s.reg conn_id with
    | none => { result := TNC_RESULT_FATAL, sent := none, calls := [] }
    | some _ =>
      if send_os_info then
        let m := add_measurement provider
          { vendor_id := PEN_IETF, type := IETF_ATTR_PRODUCT_INFORMATION } imc_msg_empty none
        let m := add_measurement provider
          { vendor_id := PEN_IETF, type := IETF_ATTR_STRING_VERSION } m none
        { result := send m.attrs false, sent := some (m.attrs, false), calls := m.calls }
      else { result := TNC_RESULT_SUCCESS, sent := none, calls := [] }

/-- TNC_IMC_ReceiveMessage: fail when not initialized; fail fatally when
the connection has no registered state; otherwise construct the inbound
message from the raw data and hand it to receive_message. -/
def TNC_IMC_ReceiveMessage (provider : Provider) (send : SendPrim)
    (conn_id : Nat) (msg : parse_outcome) (s : imc_globals) : receive_outcome :=
  if !s.imc_android then
    { result := TNC_RESULT_NOT_INITIALIZED, sent := none, calls := [] }
  else
    match reg_lookup s.reg conn_id with
    | none => { result := TNC_RESULT_FATAL, sent := none, calls := [] }
    | some _ => receive_message provider send msg

/-- TNC_IMC_ReceiveMessageLong: identical control flow to
TNC_IMC_ReceiveMessage; the extra routing metadata only parametrizes the
construction of the inbound message. -/
def TNC_IMC_ReceiveMessageLong (provider : Provider) (send : SendPrim)
    (src_imv_id dst_imc_id conn_id : Nat) (msg : parse_outcome)
    (s : imc_globals) : receive_outcome :=
  if !s.imc_android then
    { result := TNC_RESULT_NOT_INITIALIZED, sent := none, calls := [] }
  else
    match reg_lookup s.reg conn_id with
    | none => { result := TNC_RESULT_FATAL, sent := none, calls := [] }
    | some _ => receive_message provider send msg

/-- TNC_IMC_BatchEnding: fail when not initialized, else succeed; the
connection identifier is not consulted. -/
def TNC_IMC_BatchEnding (conn_id : Nat) (s : imc_globals) : TNC_Result :=
  if !s.imc_android then TNC_RESULT_NOT_INITIALIZED
  else TNC_RESULT_SUCCESS

/-- TNC_IMC_Terminate: fail when not initialized; otherwise deinitialize
the measurement subsystem (libpts) before destroying the agent and
clearing the handle, leaving the process fully uninitialized. -/
def TNC_IMC_Terminate (s : imc_globals) : TNC_Result × imc_globals :=
  if !s.imc_android then (TNC_RESULT_NOT_INITIALIZED, s)
  else (TNC_RESULT_SUCCESS, fresh_globals)

/-- TNC_IMC_ProvideBindFunction: fail when not initialized, else delegate
to the agent bind operation (modelled from the spec as a succeeding
passthrough registration hook; imc_agent.c is not among the given
sources). -/
def TNC_IMC_ProvideBindFunction (s : imc_globals) : TNC_Result :=
  if !s.imc_android then TNC_RESULT_NOT_INITIALIZED
  else TNC_RESULT_SUCCESS

/-- One invocation of a collector entry point, with the inputs that
matter to the embedding. -/
inductive imc_op where
  | opInit (create_ok : Bool) (min_version max_version : Nat)
  | opNotify (imc_id conn_id new_state : Nat)
  | opBegin (send_os_info : Bool) (conn_id : Nat)
  | opReceive (conn_id : Nat) (msg : parse_outcome)
  | opReceiveLong (src_imv_id dst_imc_id conn_id : Nat) (msg : parse_outcome)
  | opBatch (conn_id : Nat)
  | opTerminate
  | opBind
  deriving DecidableEq, Repr

/-- Whether the operation is an Initialize call. -/
def imc_op.isInitOp : imc_op → Bool
  | imc_op.opInit _ _ _ => true
  | _ => false

/-- Run one entry point against the process globals, returning its result
code and the new globals. -/
def imc_step (provider : Provider) (send : SendPrim) (s : imc_globals) :
    imc_op → TNC_Result × imc_globals
  | imc_op.opInit ok mn mx => TNC_IMC_Initialize ok mn mx s
  | imc_op.opNotify i c n => TNC_IMC_NotifyConnectionChange i c n s
  | imc_op.opBegin o c => ((TNC_IMC_BeginHandshake provider send o c s).result, s)
  | imc_op.opReceive c m => ((TNC_IMC_ReceiveMessage provider send c m s).result, s)
  | imc_op.opReceiveLong sv dst c m =>
      ((TNC_IMC_ReceiveMessageLong provider send sv dst c m s).result, s)
  | imc_op.opBatch c => (TNC_IMC_BatchEnding c s, s)
  | imc_op.opTerminate => TNC_IMC_Terminate s
  | imc_op.opBind => (TNC_IMC_ProvideBindFunction s, s)

/-- Run a sequence of entry points, threading the process globals. -/
def imc_run (provider : Provider) (send : SendPrim) :
    imc_globals → List imc_op → imc_globals
  | s, [] => s
  | s, op :: ops => imc_run provider send (imc_step provider send s op).2 ops

/-- An otherwise-unassigned vendor namespace used by the concrete
scenario of the design document (neither the IETF nor the ITA pen). -/
def VENDOR_X : Nat := 0x00abcd

/-- An inbound message holding exactly one IETF attribute-request
attribute listing the given (vendor_id, type) entries. -/
def attr_request_msg (entries : List pen_type_t) : parse_outcome :=
  parse_outcome.wellFormed
    [{ attr_type := { vendor_id := PEN_IETF, type := IETF_ATTR_ATTRIBUTE_REQUEST },
       value := attr_value.entries entries }]

/-- The two baseline attributes BeginHandshake assembles when the
send-os-info option is enabled and both measurements are available. -/
def baseline_attrs (d1 d2 : List Nat) : List meas_attr :=
  [{ vendor_id := PEN_IETF, type := IETF_ATTR_PRODUCT_INFORMATION, data := d1 },
   { vendor_id := PEN_IETF, type := IETF_ATTR_STRING_VERSION, data := d2 }]

/-- A deterministic sample provider used to evaluate the theorems on
concrete inputs: it has data for the two IETF baseline attribute types
(no arguments) and for any request that carries setting names, and no
data otherwise. -/
def wProvider : Provider := fun t args =>
  match args with
  | none =>
    if t.vendor_id = PEN_IETF ∧
       (t.type = IETF_ATTR_PRODUCT_INFORMATION ∨ t.type = IETF_ATTR_STRING_VERSION)
    then some [7] else none
  | some names => some [names.length]

/-- A sample send primitive that always accepts the message. -/
def wSend : SendPrim := fun _ _ => TNC_RESULT_SUCCESS

/-- A sample initialized process state with one registered connection
(identifier 5) still in the created lifecycle state. -/
def wGlobals : imc_globals :=
  { imc_android := true, libpts := true,
    reg := [(5, { lifecycle := TNC_CONNECTION_STATE_CREATE, result := none })] }

/-- add_measurement when the provider has data: the wrapped attribute is
appended and the invocation is recorded. -/
theorem add_measurement_some (provider : Provider) (t : pen_type_t)
    (msg : out_msg_t) (args : Option (List String)) (d : List Nat)
    (h : provider t args = some d) :
    add_measurement provider t msg args
      = { attrs := msg.attrs ++ [{ vendor_id := t.vendor_id, type := t.type, data := d }],
          calls := msg.calls ++ [(t, args)] } := by
  simp [add_measurement, get_measurement, h]

/-- add_measurement when the provider has no data: only the invocation is
recorded, the attribute list is unchanged. -/
theorem add_measurement_none (provider : Provider) (t : pen_type_t)
    (msg : out_msg_t) (args : Option (List String))
    (h : provider t args = none) :
    add_measurement provider t msg args
      = { attrs := msg.attrs, calls := msg.calls ++ [(t, args)] } := by
  simp [add_measurement, get_measurement, h]

/-- Folding add_measurement over a request list appends one attribute per
entry the provider has data for. -/
theorem foldl_add_attrs_len (provider : Provider) (entries : List pen_type_t)
    (m : out_msg_t) :
    (entries.foldl (fun acc e => add_measurement provider e acc none) m).attrs.length
      = m.attrs.length + entries.countP (fun e => (provider e none).isSome) := by
  induction entries generalizing m with
  | nil => simp
  | cons e rest ih =>
    cases h : provider e none with
    | some d =>
      simp [List.foldl_cons, add_measurement_some provider e m none d h, ih,
            List.countP_cons, h]
      omega
    | none =>
      simp [List.foldl_cons, add_measurement_none provider e m none h, ih,
            List.countP_cons, h]

/-- Folding add_measurement over a request list records exactly one
provider invocation per entry, in order, each with no argument list. -/
theorem foldl_add_calls (provider : Provider) (entries : List pen_type_t)
    (m : out_msg_t) :
    (entries.foldl (fun acc e => add_measurement provider e acc none) m).calls
      = m.calls ++ entries.map (fun e => ((e, none) : meas_call)) := by
  induction entries generalizing m with
  | nil => simp
  | cons e rest ih =>
    cases h : provider e none with
    | some d =>
      simp [List.foldl_cons, add_measurement_some provider e m none d h, ih]
    | none =>
      simp [List.foldl_cons, add_measurement_none provider e m none h, ih]

/-- Entries the provider can serve plus entries it cannot account for the
whole request list. -/
theorem countP_isSome_add_isNone (provider : Provider) (entries : List pen_type_t) :
    entries.countP (fun e => (provider e none).isSome)
      + entries.countP (fun e => (provider e none).isNone) = entries.length := by
  induction entries with
  | nil => simp
  | cons e rest ih =>
    cases h : provider e none <;>
      simp [List.countP_cons, h] <;> omega

/-- Updating a registered identifier leaves it registered with the new
record (first match). -/
theorem reg_lookup_set_of_isSome (reg : Registry) (id : Nat)
    (st st0 : imc_state_rec) (h : reg_lookup reg id = some st0) :
    reg_lookup (reg_set reg id st) id = some st := by
  induction reg with
  | nil => simp [reg_lookup] at h
  | cons p rest ih =>
    by_cases hp : p.1 = id
    · simp [reg_set, reg_lookup, hp]
    · simp [reg_lookup, hp] at h
      simpa [reg_set, reg_lookup, hp] using ih h

/-- C2: for every inbound message, if the parse flags a fatal framing
error then receive_message invokes no send for the reply and returns the
fatal result code; if no fatal error is flagged, the correlated reply is
handed to the send primitive with the exclusive flag set to true. -/
theorem C2_reply_policy (provider : Provider) (send : SendPrim)
    (msg : parse_outcome) :
    ((imc_msg_receive msg).2 = true →
       (receive_message provider send msg).sent = none ∧
       (receive_message provider send msg).result = TNC_RESULT_FATAL) ∧
    ((imc_msg_receive msg).2 = false →
       ∃ m, (receive_message provider send msg).sent = some (m, true) ∧
            (receive_message provider send msg).result = send m true) := by
  cases msg with
  | wellFormed l =>
    refine ⟨fun h => by simp [imc_msg_receive] at h, fun _ => ?_⟩
    refine ⟨(l.foldl (dispatch_attr provider) imc_msg_empty).attrs, ?_, ?_⟩ <;>
      simp [receive_message, imc_msg_receive, msg_attrs]
  | framingError =>
    exact ⟨fun _ => ⟨by simp [receive_message, imc_msg_receive],
                     by simp [receive_message, imc_msg_receive]⟩,
           fun h => by simp [imc_msg_receive] at h⟩

/-- C2 witness: on a framing-corrupted message no reply is sent and the
fatal result is returned. -/
theorem C2_reply_policy_witness :
    (receive_message wProvider wSend parse_outcome.framingError).sent = none ∧
    (receive_message wProvider wSend parse_outcome.framingError).result
      = TNC_RESULT_FATAL :=
  (C2_reply_policy wProvider wSend parse_outcome.framingError).1 rfl

/-- C3 counterexample: called on the fresh process with a version range
excluding the supported version, Initialize returns no-common-version yet
leaves the process-wide collector handle allocated, contrary to the
claim that the failing case does not leave the state allocated. -/
theorem C3_counterexample :
    (TNC_IMC_Initialize true 2 3 fresh_globals).1 = TNC_RESULT_NO_COMMON_VERSION ∧
    (TNC_IMC_Initialize true 2 3 fresh_globals).2.imc_android = true := by
  constructor <;> rfl

/-- C3 (amended): on an uninitialized collector whose agent creation
succeeds, Initialize returns no-common-version exactly when the range
excludes the supported version; the collector state and the measurement
subsystem are allocated before the version check, so they remain
allocated in the failing case exactly as in the success case. -/
theorem C3_version_check_after_alloc (mn mx : Nat) :
    ((TNC_IMC_Initialize true mn mx fresh_globals).1 = TNC_RESULT_NO_COMMON_VERSION
       ↔ (TNC_IFIMC_VERSION_1 < mn ∨ mx < TNC_IFIMC_VERSION_1)) ∧
    ((TNC_IFIMC_VERSION_1 < mn ∨ mx < TNC_IFIMC_VERSION_1) →
       TNC_IMC_Initialize true mn mx fresh_globals
         = (TNC_RESULT_NO_COMMON_VERSION,
            { imc_android := true, libpts := true, reg := [] })) ∧
    (¬(TNC_IFIMC_VERSION_1 < mn ∨ mx < TNC_IFIMC_VERSION_1) →
       TNC_IMC_Initialize true mn mx fresh_globals
         = (TNC_RESULT_SUCCESS,
            { imc_android := true, libpts := true, reg := [] })) := by
  by_cases h : TNC_IFIMC_VERSION_1 < mn ∨ mx < TNC_IFIMC_VERSION_1 <;>
    simp [TNC_IMC_Initialize, fresh_globals, h]

/-- C3 witness: with range [2,3] the version check fails and the
allocated state is kept; with range [1,1] Initialize succeeds. -/
theorem C3_version_check_after_alloc_witness :
    TNC_IMC_Initialize true 2 3 fresh_globals
      = (TNC_RESULT_NO_COMMON_VERSION,
         { imc_android := true, libpts := true, reg := [] }) ∧
    TNC_IMC_Initialize true 1 1 fresh_globals
      = (TNC_RESULT_SUCCESS,
         { imc_android := true, libpts := true, reg := [] }) :=
  ⟨(C3_version_check_after_alloc 2 3).2.1 (by decide),
   (C3_version_check_after_alloc 1 1).2.2 (by decide)⟩

/-- C8: for an initialized collector and a registered connection, with
the send-os-info option disabled BeginHandshake invokes no send and
returns success; with the option enabled (and both baseline measurements
available) it builds the message with the two baseline attributes and
hands it to the send primitive with the exclusive flag set to false. -/
theorem C8_begin_handshake_option (provider : Provider) (send : SendPrim)
    (conn_id : Nat) (s : imc_globals) (st : imc_state_rec)
    (hinit : s.imc_android = true)
    (hreg : reg_lookup s.reg conn_id = some st) :
    (TNC_IMC_BeginHandshake provider send false conn_id s
       = { result := TNC_RESULT_SUCCESS, sent := none, calls := [] }) ∧
    (∀ d1 d2,
       provider { vendor_id := PEN_IETF, type := IETF_ATTR_PRODUCT_INFORMATION } none
         = some d1 →
       provider { vendor_id := PEN_IETF, type := IETF_ATTR_STRING_VERSION } none
         = some d2 →
       (TNC_IMC_BeginHandshake provider send true conn_id s).sent
         = some (baseline_attrs d1 d2, false) ∧
       (TNC_IMC_BeginHandshake provider send true conn_id s).result
         = send (baseline_attrs d1 d2) false) := by
  constructor
  · simp [TNC_IMC_BeginHandshake, hinit, hreg]
  · intro d1 d2 h1 h2
    constructor <;>
      simp [TNC_IMC_BeginHandshake, hinit, hreg, baseline_attrs,
            add_measurement, get_measurement, h1, h2, imc_msg_empty]

/-- C8 witness: evaluated on the sample provider, sample send primitive
and the sample registered connection. -/
theorem C8_begin_handshake_option_witness :
    (TNC_IMC_BeginHandshake wProvider wSend false 5 wGlobals
       = { result := TNC_RESULT_SUCCESS, sent := none, calls := [] }) ∧
    (TNC_IMC_BeginHandshake wProvider wSend true 5 wGlobals).sent
       = some (baseline_attrs [7] [7], false) ∧
    (TNC_IMC_BeginHandshake wProvider wSend true 5 wGlobals).result
       = wSend (baseline_attrs [7] [7]) false := by
  have h := C8_begin_handshake_option wProvider wSend 5 wGlobals
    { lifecycle := TNC_CONNECTION_STATE_CREATE, result := none } rfl (by decide)
  exact ⟨h.1, h.2 [7] [7] (by decide) (by decide)⟩

/-- C10: once initialized, BeginHandshake, ReceiveMessage and
ReceiveMessageLong return the fatal result (not success, not
not-initialized) for a connection identifier with no registered state,
performing no dispatch and invoking no send; BatchEnding ignores the
connection identifier and returns success for any identifier. -/
theorem C10_unknown_connection_fatal (provider : Provider) (send : SendPrim)
    (conn_id : Nat) (s : imc_globals)
    (hinit : s.imc_android = true)
    (hnone : reg_lookup s.reg conn_id = none) :
    (∀ b, TNC_IMC_BeginHandshake provider send b conn_id s
       = { result := TNC_RESULT_FATAL, sent := none, calls := [] }) ∧
    (∀ msg, TNC_IMC_ReceiveMessage provider send conn_id msg s
       = { result := TNC_RESULT_FATAL, sent := none, calls := [] }) ∧
    (∀ sv dst msg, TNC_IMC_ReceiveMessageLong provider send sv dst conn_id msg s
       = { result := TNC_RESULT_FATAL, sent := none, calls := [] }) ∧
    (∀ c, TNC_IMC_BatchEnding c s = TNC_RESULT_SUCCESS) := by
  refine ⟨fun b => ?_, fun msg => ?_, fun sv dst msg => ?_, fun c => ?_⟩ <;>
    simp [TNC_IMC_BeginHandshake, TNC_IMC_ReceiveMessage,
          TNC_IMC_ReceiveMessageLong, TNC_IMC_BatchEnding, hinit, hnone]

/-- C10 witness: evaluated on the sample provider and send primitive with
an initialized state whose registry does not know connection 9. -/
theorem C10_unknown_connection_fatal_witness :
    TNC_IMC_BeginHandshake wProvider wSend true 9 wGlobals
      = { result := TNC_RESULT_FATAL, sent := none, calls := [] } ∧
    TNC_IMC_ReceiveMessage wProvider wSend 9 parse_outcome.framingError wGlobals
      = { result := TNC_RESULT_FATAL, sent := none, calls := [] } ∧
    TNC_IMC_ReceiveMessageLong wProvider wSend 1 2 9 parse_outcome.framingError wGlobals
      = { result := TNC_RESULT_FATAL, sent := none, calls := [] } ∧
    TNC_IMC_BatchEnding 9 wGlobals = TNC_RESULT_SUCCESS := by
  have h := C10_unknown_connection_fatal wProvider wSend 9 wGlobals rfl (by decide)
  exact ⟨h.1 true, h.2.1 parse_outcome.framingError,
         h.2.2.1 1 2 parse_outcome.framingError, h.2.2.2 9⟩

/-- C6: for an initialized collector, NotifyConnectionChange with the
handshake-begin state performs the registry transition and seeds the
stored evaluation result to the do-not-know value before returning
success; if the transition fails (no registered record), it returns the
fatal result and leaves the registry untouched. -/
theorem C6_notify_handshake_seeds (imc_id conn_id : Nat) (s : imc_globals)
    (hinit : s.imc_android = true) :
    (∀ st, reg_lookup s.reg conn_id = some st →
       (TNC_IMC_NotifyConnectionChange imc_id conn_id
          TNC_CONNECTION_STATE_HANDSHAKE s).1 = TNC_RESULT_SUCCESS ∧
       reg_lookup (TNC_IMC_NotifyConnectionChange imc_id conn_id
          TNC_CONNECTION_STATE_HANDSHAKE s).2.reg conn_id
         = some { lifecycle := TNC_CONNECTION_STATE_HANDSHAKE,
                  result := some TNC_IMV_EVALUATION_RESULT_DONT_KNOW }) ∧
    (reg_lookup s.reg conn_id = none →
       TNC_IMC_NotifyConnectionChange imc_id conn_id
          TNC_CONNECTION_STATE_HANDSHAKE s = (TNC_RESULT_FATAL, s)) := by
  have hne1 : TNC_CONNECTION_STATE_HANDSHAKE ≠ TNC_CONNECTION_STATE_CREATE := by decide
  constructor
  · intro st hst
    have hchange : change_state s.reg conn_id TNC_CONNECTION_STATE_HANDSHAKE
        = (TNC_RESULT_SUCCESS, reg_set s.reg conn_id
            { lifecycle := TNC_CONNECTION_STATE_HANDSHAKE,
              result := if st.result = none
                        then some TNC_IMV_EVALUATION_RESULT_DONT_KNOW
                        else st.result }) := by
      simp [change_state, hst]
    have hA := reg_lookup_set_of_isSome s.reg conn_id
      { lifecycle := TNC_CONNECTION_STATE_HANDSHAKE,
        result := if st.result = none
                  then some TNC_IMV_EVALUATION_RESULT_DONT_KNOW
                  else st.result } st hst
    have hB := reg_lookup_set_of_isSome _ conn_id
      { lifecycle := TNC_CONNECTION_STATE_HANDSHAKE,
        result := some TNC_IMV_EVALUATION_RESULT_DONT_KNOW } _ hA
    constructor
    · simp [TNC_IMC_NotifyConnectionChange, hinit, hne1, hchange]
    · simp [TNC_IMC_NotifyConnectionChange, hinit, hne1, hchange, set_result, hA, hB]
  · intro hnone
    obtain ⟨ia, lp, rg⟩ := s
    replace hinit : ia = true := hinit
    subst hinit
    simp [TNC_IMC_NotifyConnectionChange, change_state, hnone, hne1] at *

/-- C6 witness: seeding succeeds on the sample registered connection 5;
the unknown connection 9 yields the fatal result and an unchanged
state. -/
theorem C6_notify_handshake_seeds_witness :
    (TNC_IMC_NotifyConnectionChange 1 5 TNC_CONNECTION_STATE_HANDSHAKE wGlobals).1
      = TNC_RESULT_SUCCESS ∧
    reg_lookup (TNC_IMC_NotifyConnectionChange 1 5
        TNC_CONNECTION_STATE_HANDSHAKE wGlobals).2.reg 5
      = some { lifecycle := TNC_CONNECTION_STATE_HANDSHAKE,
               result := some TNC_IMV_EVALUATION_RESULT_DONT_KNOW } ∧
    TNC_IMC_NotifyConnectionChange 1 9 TNC_CONNECTION_STATE_HANDSHAKE wGlobals
      = (TNC_RESULT_FATAL, wGlobals) := by
  have h5 := C6_notify_handshake_seeds 1 5 wGlobals rfl
  have h9 := C6_notify_handshake_seeds 1 9 wGlobals rfl
  exact ⟨(h5.1 { lifecycle := TNC_CONNECTION_STATE_CREATE, result := none } rfl).1,
         (h5.1 { lifecycle := TNC_CONNECTION_STATE_CREATE, result := none } rfl).2,
         h9.2 rfl⟩

/-- C1: when an inbound message carries one attribute request listing N
pairs and the provider is unavailable for exactly one of them, the reply
contains exactly N-1 attributes and receive_message returns success (the
missing measurement is skipped, not escalated). -/
theorem C1_partial_failure_isolation (provider : Provider) (send : SendPrim)
    (entries : List pen_type_t)
    (hsend : ∀ m, send m true = TNC_RESULT_SUCCESS)
    (hone : entries.countP (fun e => (provider e none).isNone) = 1) :
    ∃ m, (receive_message provider send (attr_request_msg entries)).sent
           = some (m, true) ∧
      m.length = entries.length - 1 ∧
      (receive_message provider send (attr_request_msg entries)).result
        = TNC_RESULT_SUCCESS := by
  refine ⟨(entries.foldl (fun acc e => add_measurement provider e acc none)
            imc_msg_empty).attrs, ?_, ?_, ?_⟩
  · simp [receive_message, imc_msg_receive, msg_attrs, attr_request_msg,
          dispatch_attr, handle_ietf_attribute, requestEntries,
          PEN_IETF, IETF_ATTR_ATTRIBUTE_REQUEST]
  · have h1 := foldl_add_attrs_len provider entries imc_msg_empty
    have h2 := countP_isSome_add_isNone provider entries
    rw [h1]
    simp [imc_msg_empty]
    omega
  · simp [receive_message, imc_msg_receive, msg_attrs, attr_request_msg,
          dispatch_attr, handle_ietf_attribute, requestEntries,
          PEN_IETF, IETF_ATTR_ATTRIBUTE_REQUEST, hsend]

/-- The request list of the concrete scenario: two IETF baseline types
then a pair under an unassigned vendor. -/
def wEntries : List pen_type_t :=
  [{ vendor_id := PEN_IETF, type := IETF_ATTR_PRODUCT_INFORMATION },
   { vendor_id := PEN_IETF, type := IETF_ATTR_STRING_VERSION },
   { vendor_id := VENDOR_X, type := 9999 }]

/-- C1 witness: on the sample provider, which serves the two IETF
baseline types and has nothing for the third pair, the reply carries 2 of
the 3 requested attributes and the result is success. -/
theorem C1_partial_failure_isolation_witness :
    ∃ m, (receive_message wProvider wSend (attr_request_msg wEntries)).sent
           = some (m, true) ∧
      m.length = wEntries.length - 1 ∧
      (receive_message wProvider wSend (attr_request_msg wEntries)).result
        = TNC_RESULT_SUCCESS :=
  C1_partial_failure_isolation wProvider wSend wEntries (fun m => rfl) (by decide)

/-- An attribute-request attribute over the concrete request list, used
to evaluate theorems on concrete input. -/
def wAttrReq : pa_tnc_attr_t :=
  { attr_type := { vendor_id := PEN_IETF, type := IETF_ATTR_ATTRIBUTE_REQUEST },
    value := attr_value.entries wEntries }

/-- A get-settings attribute carrying one setting name, used to evaluate
theorems on concrete input. -/
def wAttrSettings : pa_tnc_attr_t :=
  { attr_type := { vendor_id := PEN_ITA, type := ITA_ATTR_GET_SETTINGS },
    value := attr_value.settings ["android.os.version"] }

/-- An IETF attribute of a type the dispatch does not handle, used to
evaluate theorems on concrete input. -/
def wAttrOther : pa_tnc_attr_t :=
  { attr_type := { vendor_id := PEN_IETF, type := 99 },
    value := attr_value.raw [1, 2] }

/-- C5: dispatch matches on vendor_id first and then on type: an IETF
attribute-request attribute triggers exactly one add_measurement
(provider) invocation per listed pair, in list order, each with no
argument list; an ITA get-settings attribute triggers exactly one
invocation whose argument list is the carried setting names; every other
attribute leaves the reply message completely unchanged (no invocation,
no reply attribute, and no error result exists on this path). -/
theorem C5_dispatch_rule (provider : Provider) (m : out_msg_t)
    (attr : pa_tnc_attr_t) :
    (∀ l, attr.attr_type.vendor_id = PEN_IETF →
       attr.attr_type.type = IETF_ATTR_ATTRIBUTE_REQUEST →
       attr.value = attr_value.entries l →
       (dispatch_attr provider m attr).calls
         = m.calls ++ l.map (fun e => ((e, none) : meas_call))) ∧
    (∀ names, attr.attr_type.vendor_id = PEN_ITA →
       attr.attr_type.type = ITA_ATTR_GET_SETTINGS →
       attr.value = attr_value.settings names →
       (dispatch_attr provider m attr).calls
         = m.calls ++ [({ vendor_id := PEN_ITA, type := ITA_ATTR_SETTINGS },
                        some names)]) ∧
    ((attr.attr_type.vendor_id = PEN_IETF →
        attr.attr_type.type ≠ IETF_ATTR_ATTRIBUTE_REQUEST) →
     (attr.attr_type.vendor_id = PEN_ITA →
        attr.attr_type.type ≠ ITA_ATTR_GET_SETTINGS) →
     dispatch_attr provider m attr = m) := by
  have hpen : PEN_ITA ≠ PEN_IETF := by decide
  refine ⟨?_, ?_, ?_⟩
  · intro l hv ht hval
    simp [dispatch_attr, hv, handle_ietf_attribute, ht, hval, requestEntries,
          foldl_add_calls]
  · intro names hv ht hval
    cases hp : provider { vendor_id := PEN_ITA, type := ITA_ATTR_SETTINGS }
        (some names) <;>
      simp [dispatch_attr, hv, hpen, handle_ita_attribute, ht, hval,
            settingNames, add_measurement, get_measurement, hp]
  · intro h1 h2
    by_cases hv : attr.attr_type.vendor_id = PEN_IETF
    · simp [dispatch_attr, hv, handle_ietf_attribute, h1 hv]
    · by_cases hv2 : attr.attr_type.vendor_id = PEN_ITA
      · simp [dispatch_attr, hv, hv2, hpen, handle_ita_attribute, h2 hv2]
      · simp [dispatch_attr, hv, hv2]

/-- C5 witness: the three dispatch outcomes evaluated on concrete
attributes against the sample provider. -/
theorem C5_dispatch_rule_witness :
    (dispatch_attr wProvider imc_msg_empty wAttrReq).calls
      = imc_msg_empty.calls ++ wEntries.map (fun e => ((e, none) : meas_call)) ∧
    (dispatch_attr wProvider imc_msg_empty wAttrSettings).calls
      = imc_msg_empty.calls
        ++ [({ vendor_id := PEN_ITA, type := ITA_ATTR_SETTINGS },
             some ["android.os.version"])] ∧
    dispatch_attr wProvider imc_msg_empty wAttrOther = imc_msg_empty := by
  refine ⟨(C5_dispatch_rule wProvider imc_msg_empty wAttrReq).1 wEntries rfl rfl rfl,
          (C5_dispatch_rule wProvider imc_msg_empty wAttrSettings).2.1
            ["android.os.version"] rfl rfl rfl,
          (C5_dispatch_rule wProvider imc_msg_empty wAttrOther).2.2
            (fun _ => by decide) (fun h => absurd h (by decide))⟩

/-- C7: on the inbound message carrying one attribute request that lists
the product-information and string-version pairs and a third pair under
an unassigned vendor, with the provider serving the first two and
unavailable for the third, the reply holds exactly the two served
attributes in request order and the call returns success. -/
theorem C7_concrete_scenario (provider : Provider) (send : SendPrim)
    (hsend : ∀ m, send m true = TNC_RESULT_SUCCESS)
    (d1 d2 : List Nat)
    (h1 : provider { vendor_id := PEN_IETF, type := IETF_ATTR_PRODUCT_INFORMATION }
            none = some d1)
    (h2 : provider { vendor_id := PEN_IETF, type := IETF_ATTR_STRING_VERSION }
            none = some d2)
    (h3 : provider { vendor_id := VENDOR_X, type := 9999 } none = none) :
    (receive_message provider send (attr_request_msg wEntries)).sent
      = some (baseline_attrs d1 d2, true) ∧
    (receive_message provider send (attr_request_msg wEntries)).result
      = TNC_RESULT_SUCCESS := by
  constructor <;>
    simp [receive_message, imc_msg_receive, msg_attrs, attr_request_msg,
          dispatch_attr, handle_ietf_attribute, requestEntries, wEntries,
          add_measurement, get_measurement, h1, h2, h3, hsend,
          baseline_attrs, imc_msg_empty]

/-- C7 witness: the scenario evaluated on the sample provider and send
primitive. -/
theorem C7_concrete_scenario_witness :
    (receive_message wProvider wSend (attr_request_msg wEntries)).sent
      = some (baseline_attrs [7] [7], true) ∧
    (receive_message wProvider wSend (attr_request_msg wEntries)).result
      = TNC_RESULT_SUCCESS :=
  C7_concrete_scenario wProvider wSend (fun m => rfl) [7] [7]
    (by decide) (by decide) (by decide)

/-- Registry create returns either fatal or success. -/
theorem create_state_result (reg : Registry) (id : Nat) :
    (create_state reg id).1 = TNC_RESULT_FATAL ∨
    (create_state reg id).1 = TNC_RESULT_SUCCESS := by
  unfold create_state
  cases reg_lookup reg id <;> simp

/-- Registry change returns either fatal or success. -/
theorem change_state_result (reg : Registry) (id n : Nat) :
    (change_state reg id n).1 = TNC_RESULT_FATAL ∨
    (change_state reg id n).1 = TNC_RESULT_SUCCESS := by
  unfold change_state
  cases reg_lookup reg id <;> simp

/-- Registry delete returns either fatal or success. -/
theorem delete_state_result (reg : Registry) (id : Nat) :
    (delete_state reg id).1 = TNC_RESULT_FATAL ∨
    (delete_state reg id).1 = TNC_RESULT_SUCCESS := by
  unfold delete_state
  cases reg_lookup reg id <;> simp

/-- Any entry point other than Terminate leaves the collector handle
allocated once it is allocated. -/
theorem step_keeps_imc_android (provider : Provider) (send : SendPrim)
    (s : imc_globals) (op : imc_op) (h : s.imc_android = true)
    (hop : op ≠ imc_op.opTerminate) :
    ((imc_step provider send s op).2).imc_android = true := by
  cases op with
  | opInit ok mn mx => simp [imc_step, TNC_IMC_Initialize, h]
  | opNotify i c n =>
    have hd1 : TNC_CONNECTION_STATE_HANDSHAKE ≠ TNC_CONNECTION_STATE_CREATE := by decide
    have hd2 : TNC_CONNECTION_STATE_DELETE ≠ TNC_CONNECTION_STATE_CREATE := by decide
    have hd3 : TNC_CONNECTION_STATE_DELETE ≠ TNC_CONNECTION_STATE_HANDSHAKE := by decide
    by_cases h0 : n = TNC_CONNECTION_STATE_CREATE
    · simp [imc_step, TNC_IMC_NotifyConnectionChange, h, h0]
    · by_cases h1 : n = TNC_CONNECTION_STATE_HANDSHAKE
      · subst h1
        by_cases h2 : (change_state s.reg c TNC_CONNECTION_STATE_HANDSHAKE).1
            = TNC_RESULT_SUCCESS <;>
          simp [imc_step, TNC_IMC_NotifyConnectionChange, h, hd1, h2]
      · by_cases h2 : n = TNC_CONNECTION_STATE_DELETE
        · subst h2
          simp [imc_step, TNC_IMC_NotifyConnectionChange, h, hd2, hd3]
        · simp [imc_step, TNC_IMC_NotifyConnectionChange, h, h0, h1, h2]
  | opBegin o c => simp [imc_step, h]
  | opReceive c m => simp [imc_step, h]
  | opReceiveLong sv dst c m => simp [imc_step, h]
  | opBatch c => simp [imc_step, h]
  | opTerminate => exact absurd rfl hop
  | opBind => simp [imc_step, h]

/-- A run without a Terminate call keeps the collector handle
allocated. -/
theorem run_keeps_imc_android (provider : Provider) (send : SendPrim)
    (s : imc_globals) (ops : List imc_op) (h : s.imc_android = true)
    (hmem : imc_op.opTerminate ∉ ops) :
    (imc_run provider send s ops).imc_android = true := by
  induction ops generalizing s with
  | nil => exact h
  | cons op rest ih =>
    have hne : op ≠ imc_op.opTerminate := fun he => hmem (he ▸ List.mem_cons_self op rest)
    have hrest : imc_op.opTerminate ∉ rest := fun hm => hmem (List.mem_cons_of_mem op hm)
    exact ih _ (step_keeps_imc_android provider send s op h hne) hrest

/-- On an uninitialized collector, every entry point other than
Initialize returns the not-initialized result and changes nothing. -/
theorem step_uninitialized (provider : Provider) (send : SendPrim)
    (s : imc_globals) (op : imc_op) (h : s.imc_android = false)
    (hop : op.isInitOp = false) :
    imc_step provider send s op = (TNC_RESULT_NOT_INITIALIZED, s) := by
  cases op with
  | opInit ok mn mx => simp [imc_op.isInitOp] at hop
  | opNotify i c n => simp [imc_step, TNC_IMC_NotifyConnectionChange, h]
  | opBegin o c => simp [imc_step, TNC_IMC_BeginHandshake, h]
  | opReceive c m => simp [imc_step, TNC_IMC_ReceiveMessage, h]
  | opReceiveLong sv dst c m => simp [imc_step, TNC_IMC_ReceiveMessageLong, h]
  | opBatch c => simp [imc_step, TNC_IMC_BatchEnding, h]
  | opTerminate => simp [imc_step, TNC_IMC_Terminate, h]
  | opBind => simp [imc_step, TNC_IMC_ProvideBindFunction, h]

/-- C4: lifecycle misuse yields the specific result codes: with the
collector allocated, any second Initialize after a call sequence that
contains no Terminate returns already-initialized; Terminate succeeds and
fully resets the process state (agent handle and measurement subsystem
both released, registry gone); and on the resulting uninitialized state
every entry point (NotifyConnectionChange, BeginHandshake,
ReceiveMessage, ReceiveMessageLong, BatchEnding, Terminate,
ProvideBindFunction) returns not-initialized without changing
anything. -/
theorem C4_lifecycle_misuse (provider : Provider) (send : SendPrim)
    (s : imc_globals) (ops : List imc_op) (hinit : s.imc_android = true) :
    (imc_op.opTerminate ∉ ops →
       ∀ ok mn mx,
         (imc_step provider send (imc_run provider send s ops)
            (imc_op.opInit ok mn mx)).1 = TNC_RESULT_ALREADY_INITIALIZED) ∧
    ((imc_step provider send s imc_op.opTerminate).1 = TNC_RESULT_SUCCESS ∧
     (imc_step provider send s imc_op.opTerminate).2 = fresh_globals) ∧
    (∀ s2 : imc_globals, s2.imc_android = false →
       ∀ op : imc_op, op.isInitOp = false →
         imc_step provider send s2 op = (TNC_RESULT_NOT_INITIALIZED, s2)) := by
  refine ⟨?_, ⟨?_, ?_⟩, ?_⟩
  · intro hmem ok mn mx
    have hrun := run_keeps_imc_android provider send s ops hinit hmem
    simp [imc_step, TNC_IMC_Initialize, hrun]
  · simp [imc_step, TNC_IMC_Terminate, hinit]
  · simp [imc_step, TNC_IMC_Terminate, hinit]
  · intro s2 h2 op hop
    exact step_uninitialized provider send s2 op h2 hop

/-- C4 witness: with the sample initialized state, running BatchEnding
then Initialize yields already-initialized; Terminate succeeds and
resets; BatchEnding on the fresh state yields not-initialized. -/
theorem C4_lifecycle_misuse_witness :
    (imc_step wProvider wSend
       (imc_run wProvider wSend wGlobals [imc_op.opBatch 0])
       (imc_op.opInit true 1 1)).1 = TNC_RESULT_ALREADY_INITIALIZED ∧
    (imc_step wProvider wSend wGlobals imc_op.opTerminate).1
      = TNC_RESULT_SUCCESS ∧
    (imc_step wProvider wSend wGlobals imc_op.opTerminate).2 = fresh_globals ∧
    imc_step wProvider wSend fresh_globals (imc_op.opBatch 0)
      = (TNC_RESULT_NOT_INITIALIZED, fresh_globals) := by
  have h := C4_lifecycle_misuse wProvider wSend wGlobals [imc_op.opBatch 0] rfl
  exact ⟨h.1 (by decide) true 1 1, h.2.1.1, h.2.1.2,
         h.2.2 fresh_globals rfl (imc_op.opBatch 0) rfl⟩

/-- With the collector allocated, no entry point other than Initialize
returns not-initialized, provided the host send primitive does not
produce that code. -/
theorem step_initialized_not_notinit (provider : Provider) (send : SendPrim)
    (s : imc_globals) (op : imc_op) (h : s.imc_android = true)
    (hsend : ∀ m b, send m b ≠ TNC_RESULT_NOT_INITIALIZED)
    (hop : op.isInitOp = false) :
    (imc_step provider send s op).1 ≠ TNC_RESULT_NOT_INITIALIZED := by
  cases op with
  | opInit ok mn mx => simp [imc_op.isInitOp] at hop
  | opNotify i c n =>
    have hd1 : TNC_CONNECTION_STATE_HANDSHAKE ≠ TNC_CONNECTION_STATE_CREATE := by decide
    have hd2 : TNC_CONNECTION_STATE_DELETE ≠ TNC_CONNECTION_STATE_CREATE := by decide
    have hd3 : TNC_CONNECTION_STATE_DELETE ≠ TNC_CONNECTION_STATE_HANDSHAKE := by decide
    by_cases h0 : n = TNC_CONNECTION_STATE_CREATE
    · subst h0
      rcases create_state_result s.reg c with hx | hx <;>
        simp [imc_step, TNC_IMC_NotifyConnectionChange, h, hx]
    · by_cases h1 : n = TNC_CONNECTION_STATE_HANDSHAKE
      · subst h1
        by_cases h2 : (change_state s.reg c TNC_CONNECTION_STATE_HANDSHAKE).1
            = TNC_RESULT_SUCCESS <;>
          simp [imc_step, TNC_IMC_NotifyConnectionChange, h, hd1, h2]
      · by_cases h2 : n = TNC_CONNECTION_STATE_DELETE
        · subst h2
          rcases delete_state_result s.reg c with hx | hx <;>
            simp [imc_step, TNC_IMC_NotifyConnectionChange, h, hd2, hd3, hx]
        · rcases change_state_result s.reg c n with hx | hx <;>
            simp [imc_step, TNC_IMC_NotifyConnectionChange, h, h0, h1, h2, hx]
  | opBegin o c =>
    cases hl : reg_lookup s.reg c with
    | none => simp [imc_step, TNC_IMC_BeginHandshake, h, hl]
    | some st =>
      cases o <;> simp [imc_step, TNC_IMC_BeginHandshake, h, hl, hsend]
  | opReceive c m =>
    cases hl : reg_lookup s.reg c with
    | none => simp [imc_step, TNC_IMC_ReceiveMessage, h, hl]
    | some st =>
      cases m <;>
        simp [imc_step, TNC_IMC_ReceiveMessage, h, hl, receive_message,
              imc_msg_receive, msg_attrs, hsend]
  | opReceiveLong sv dst c m =>
    cases hl : reg_lookup s.reg c with
    | none => simp [imc_step, TNC_IMC_ReceiveMessageLong, h, hl]
    | some st =>
      cases m <;>
        simp [imc_step, TNC_IMC_ReceiveMessageLong, h, hl, receive_message,
              imc_msg_receive, msg_attrs, hsend]
  | opBatch c => simp [imc_step, TNC_IMC_BatchEnding, h]
  | opTerminate => simp [imc_step, TNC_IMC_Terminate, h]
  | opBind => simp [imc_step, TNC_IMC_ProvideBindFunction, h]

/-- C9: a fresh Initialize with a succeeding agent creation returns
either no-common-version or success, and in both cases the collector
handle remains allocated: a subsequent Initialize returns
already-initialized rather than re-initializing, and no other entry
point returns not-initialized (the host send primitive never produces
that code). A version-negotiation failure does not roll the collector
back to the uninitialized state. -/
theorem C9_version_failure_keeps_allocated (provider : Provider)
    (send : SendPrim) (mn mx : Nat)
    (hsend : ∀ m b, send m b ≠ TNC_RESULT_NOT_INITIALIZED) :
    ((TNC_IMC_Initialize true mn mx fresh_globals).1
        = TNC_RESULT_NO_COMMON_VERSION ∨
     (TNC_IMC_Initialize true mn mx fresh_globals).1 = TNC_RESULT_SUCCESS) ∧
    (TNC_IMC_Initialize true mn mx fresh_globals).2.imc_android = true ∧
    (∀ ok mn2 mx2,
       (TNC_IMC_Initialize ok mn2 mx2
          (TNC_IMC_Initialize true mn mx fresh_globals).2).1
         = TNC_RESULT_ALREADY_INITIALIZED) ∧
    (∀ op : imc_op, op.isInitOp = false →
       (imc_step provider send (TNC_IMC_Initialize true mn mx fresh_globals).2 op).1
         ≠ TNC_RESULT_NOT_INITIALIZED) := by
  have hs2 : (TNC_IMC_Initialize true mn mx fresh_globals).2.imc_android = true := by
    by_cases h : TNC_IFIMC_VERSION_1 < mn ∨ mx < TNC_IFIMC_VERSION_1 <;>
      simp [TNC_IMC_Initialize, fresh_globals, h]
  refine ⟨?_, hs2, fun ok mn2 mx2 => ?_,
          fun op hop => step_initialized_not_notinit provider send _ op hs2 hsend hop⟩
  · by_cases h : TNC_IFIMC_VERSION_1 < mn ∨ mx < TNC_IFIMC_VERSION_1 <;>
      simp [TNC_IMC_Initialize, fresh_globals, h]
  · revert hs2
    generalize (TNC_IMC_Initialize true mn mx fresh_globals).2 = S
    intro hs2
    simp [TNC_IMC_Initialize, hs2]

/-- C9 witness: with the excluding range [2,3], Initialize leaves the
handle allocated, a second Initialize is refused as already-initialized,
and BatchEnding does not report not-initialized. -/
theorem C9_version_failure_keeps_allocated_witness :
    ((TNC_IMC_Initialize true 2 3 fresh_globals).1
        = TNC_RESULT_NO_COMMON_VERSION ∨
     (TNC_IMC_Initialize true 2 3 fresh_globals).1 = TNC_RESULT_SUCCESS) ∧
    (TNC_IMC_Initialize true 2 3 fresh_globals).2.imc_android = true ∧
    (TNC_IMC_Initialize true 1 1
       (TNC_IMC_Initialize true 2 3 fresh_globals).2).1
      = TNC_RESULT_ALREADY_INITIALIZED ∧
    (imc_step wProvider wSend (TNC_IMC_Initialize true 2 3 fresh_globals).2
       (imc_op.opBatch 0)).1 ≠ TNC_RESULT_NOT_INITIALIZED := by
  have h := C9_version_failure_keeps_allocated wProvider wSend 2 3
    (fun m b => by simp [wSend])
  exact ⟨h.1, h.2.1, h.2.2.1 true 1 1, h.2.2.2 (imc_op.opBatch 0) rfl⟩
